import Mathlib

/-!
Verification of the dual-sink colorized logging facade of the `utility`
repository (`utility/logging/logging_wrapper.py`).

The embedding below is a shallow translation of the Python module:
severity level names become the inductive `Level`; the module-level color
dictionaries become association lists from `Level` to numeric color codes;
the `str.format` templates of `color_levels_template` become a Lean function
building the same strings (the octal escape `\033` is the character `\x1b`);
a message is either a plain string or an `Exception` value, modelled by its
class name together with its `str()` text; the two borrowed logger handles
are opaque string identifiers, and a call to a logger's level method is
recorded as a `Write` event; the `KeyError` that a dictionary lookup can
raise becomes the `Except` error `LogError.keyError`.
-/

set_option maxHeartbeats 1000000

namespace Utility

/-- Severity level names, from the module attribute `log_levels`. -/
inductive Level where
  | debug
  | info
  | warning
  | error
  | exception
  | critical
deriving DecidableEq, Repr

/-- A message passed to a logging method: a plain string, or an `Exception`
value modelled by its concrete class name and its human-readable text. -/
inductive Msg where
  | str (s : String)
  | exc (className : String) (text : String)
deriving DecidableEq, Repr

/-- The module dictionary `color_levels_template`, applied: for each level it
gives the format pattern into which the color code and the message are
substituted by `str.format`.  All levels but `critical` share the pattern
`"\033[{}m{}\033[0m"`; `critical` uses `"\033[7;31;{}m{}\033[0m"`. -/
def color_levels_template (level : Level) (color : Nat) (msg : String) : String :=
  match level with
  | Level.debug => "\x1b[" ++ toString color ++ "m" ++ msg ++ "\x1b[0m"
  | Level.info => "\x1b[" ++ toString color ++ "m" ++ msg ++ "\x1b[0m"
  | Level.warning => "\x1b[" ++ toString color ++ "m" ++ msg ++ "\x1b[0m"
  | Level.error => "\x1b[" ++ toString color ++ "m" ++ msg ++ "\x1b[0m"
  | Level.exception => "\x1b[" ++ toString color ++ "m" ++ msg ++ "\x1b[0m"
  | Level.critical => "\x1b[7;31;" ++ toString color ++ "m" ++ msg ++ "\x1b[0m"

/-- The module dictionary `default_color_levels` (standard Unix terminal). -/
def default_color_levels : List (Level × Nat) :=
  [(Level.debug, 36), (Level.info, 32), (Level.warning, 33),
   (Level.error, 31), (Level.exception, 31), (Level.critical, 31)]

/-- The module dictionary `pycharm_color_levels` (PyCharm terminal). -/
def pycharm_color_levels : List (Level × Nat) :=
  [(Level.debug, 34), (Level.info, 36), (Level.warning, 32),
   (Level.error, 31), (Level.exception, 31), (Level.critical, 31)]

deriving instance DecidableEq for Except

/-- The `KeyError` a Python dictionary lookup raises on a missing key. -/
inductive LogError where
  | keyError (level : Level)
deriving DecidableEq, Repr

/-- A recorded invocation of a logger handle's level-named method: which
handle was called, at which level, with which text. -/
structure Write where
  handle : String
  level : Level
  text : String
deriving DecidableEq, Repr

/-- The state of a `LoggingWrapper` object: the fields assigned by
`LoggingWrapper.__init__`. -/
structure LoggingWrapper where
  c_logger : String
  f_logger : String
  use_default_colors : Bool
  use_pycharm_colors : Bool
  color_levels : List (Level × Nat)
  use_colors : Bool
deriving DecidableEq, Repr

/-- `LoggingWrapper.__init__`: stores both handles and both flags, stores the
`color_levels` argument, then overwrites it with `pycharm_color_levels` when
`use_pycharm_colors` is set, and sets `use_colors` to true exactly when
`use_default_colors or use_pycharm_colors` holds.  (In Python the
`color_levels` parameter defaults to `default_color_levels`.) -/
def LoggingWrapper.init (c_logger f_logger : String)
    (use_default_colors use_pycharm_colors : Bool)
    (color_levels : List (Level × Nat)) : LoggingWrapper :=
  { c_logger := c_logger
    f_logger := f_logger
    use_default_colors := use_default_colors
    use_pycharm_colors := use_pycharm_colors
    color_levels := if use_pycharm_colors then pycharm_color_levels else color_levels
    use_colors := use_default_colors || use_pycharm_colors }

/-- The static method `LoggingWrapper._get_error_msg`: formats an exception as
`'[{}] {}'.format(exc.__class__.__name__, exc.__str__())`. -/
def LoggingWrapper.get_error_msg (className text : String) : String :=
  "[" ++ className ++ "] " ++ text

/-- The first line of `LoggingWrapper._call_loggers`: an `Exception` message
is converted with `_get_error_msg`, any other message is left unchanged. -/
def normalizeMsg : Msg → String
  | Msg.exc c t => LoggingWrapper.get_error_msg c t
  | Msg.str s => s

/-- `LoggingWrapper._set_color`: looks up the level's color code in the
active `color_levels` dictionary (raising `KeyError` when absent) and
substitutes code and message into the level's template. -/
def LoggingWrapper.set_color (w : LoggingWrapper) (msg : String) (level : Level) :
    Except LogError String :=
  match List.lookup level w.color_levels with
  | none => Except.error (LogError.keyError level)
  | some color => Except.ok (color_levels_template level color msg)

/-- `LoggingWrapper._call_loggers`: normalizes the message, computes the
console copy (colorized via `_set_color` exactly when `use_colors` holds),
then calls the console handle's level method with the console copy and the
file handle's level method with the plain normalized text.  The method
mutates no attribute, so the state is returned unchanged alongside the two
recorded writes, in call order. -/
def LoggingWrapper.call_loggers (w : LoggingWrapper) (msg : Msg) (level : Level) :
    Except LogError (LoggingWrapper × List Write) :=
  let m := normalizeMsg msg
  match (if w.use_colors then w.set_color m level else Except.ok m) with
  | Except.error e => Except.error e
  | Except.ok c_msg =>
      Except.ok (w, [Write.mk w.c_logger level c_msg, Write.mk w.f_logger level m])

/-- Public method `LoggingWrapper.debug`. -/
def LoggingWrapper.debug (w : LoggingWrapper) (msg : Msg) :
    Except LogError (LoggingWrapper × List Write) :=
  w.call_loggers msg Level.debug

/-- Public method `LoggingWrapper.info`. -/
def LoggingWrapper.info (w : LoggingWrapper) (msg : Msg) :
    Except LogError (LoggingWrapper × List Write) :=
  w.call_loggers msg Level.info

/-- Public method `LoggingWrapper.warning`. -/
def LoggingWrapper.warning (w : LoggingWrapper) (msg : Msg) :
    Except LogError (LoggingWrapper × List Write) :=
  w.call_loggers msg Level.warning

/-- Public method `LoggingWrapper.error`. -/
def LoggingWrapper.error (w : LoggingWrapper) (msg : Msg) :
    Except LogError (LoggingWrapper × List Write) :=
  w.call_loggers msg Level.error

/-- Public method `LoggingWrapper.exception`. -/
def LoggingWrapper.exception (w : LoggingWrapper) (msg : Msg) :
    Except LogError (LoggingWrapper × List Write) :=
  w.call_loggers msg Level.exception

/-- Public method `LoggingWrapper.critical`. -/
def LoggingWrapper.critical (w : LoggingWrapper) (msg : Msg) :
    Except LogError (LoggingWrapper × List Write) :=
  w.call_loggers msg Level.critical

/-- Dispatch to the public method named by a level, so that statements can
quantify over which level-named facade operation is called. -/
def LoggingWrapper.log (w : LoggingWrapper) (level : Level) (msg : Msg) :
    Except LogError (LoggingWrapper × List Write) :=
  match level with
  | Level.debug => w.debug msg
  | Level.info => w.info msg
  | Level.warning => w.warning msg
  | Level.error => w.error msg
  | Level.exception => w.exception msg
  | Level.critical => w.critical msg

/-- Each level-named public method is exactly `_call_loggers` at that level. -/
theorem log_eq_call_loggers (w : LoggingWrapper) (L : Level) (msg : Msg) :
    w.log L msg = w.call_loggers msg L := by
  cases L <;> rfl

/-- When colorization is enabled and the level has a color code,
`_call_loggers` produces exactly the colorized console write followed by the
plain file write. -/
theorem call_loggers_ok_colors (w : LoggingWrapper) (L : Level) (msg : Msg) (c : Nat)
    (hu : w.use_colors = true) (hl : List.lookup L w.color_levels = some c) :
    w.call_loggers msg L =
      Except.ok (w,
        [Write.mk w.c_logger L (color_levels_template L c (normalizeMsg msg)),
         Write.mk w.f_logger L (normalizeMsg msg)]) := by
  unfold LoggingWrapper.call_loggers
  rw [hu]
  simp [LoggingWrapper.set_color, hl]

/-- When colorization is disabled, `_call_loggers` sends the plain normalized
text to both handles. -/
theorem call_loggers_ok_nocolors (w : LoggingWrapper) (L : Level) (msg : Msg)
    (hu : w.use_colors = false) :
    w.call_loggers msg L =
      Except.ok (w,
        [Write.mk w.c_logger L (normalizeMsg msg),
         Write.mk w.f_logger L (normalizeMsg msg)]) := by
  unfold LoggingWrapper.call_loggers
  rw [hu]
  simp

/-- When colorization is enabled but the active policy has no entry for the
level, `_call_loggers` fails with the lookup's `KeyError` before either
handle is called. -/
theorem call_loggers_err (w : LoggingWrapper) (L : Level) (msg : Msg)
    (hu : w.use_colors = true) (hl : List.lookup L w.color_levels = none) :
    w.call_loggers msg L = Except.error (LogError.keyError L) := by
  unfold LoggingWrapper.call_loggers
  rw [hu]
  simp [LoggingWrapper.set_color, hl]

/-- General shape of a successful call: exactly one console write (colorized
when the flag is on, plain otherwise) followed by one file write with the
plain normalized text. -/
theorem log_ok_general (w : LoggingWrapper) (L : Level) (msg : Msg) (cc : Nat)
    (h : w.use_colors = true → List.lookup L w.color_levels = some cc) :
    w.log L msg =
      Except.ok (w,
        [Write.mk w.c_logger L
          (if w.use_colors then color_levels_template L cc (normalizeMsg msg)
           else normalizeMsg msg),
         Write.mk w.f_logger L (normalizeMsg msg)]) := by
  rw [log_eq_call_loggers]
  cases hu : w.use_colors with
  | false => rw [call_loggers_ok_nocolors w L msg hu]; simp [hu]
  | true => rw [call_loggers_ok_colors w L msg cc hu (h hu)]; simp [hu]

/-- The color code determines the template's output: equal outputs at the
same level and message force equal rendered codes. -/
theorem template_code_inj (L : Level) (c1 c2 : Nat) (msg : String)
    (he : color_levels_template L c1 msg = color_levels_template L c2 msg) :
    toString c1 = toString c2 := by
  apply String.ext
  have h2 := congrArg String.data he
  cases L <;>
    simp only [color_levels_template, String.data_append, List.append_assoc] at h2 <;>
    exact List.append_cancel_right (List.append_cancel_left h2)

/-- Claim C4: if `use_pycharm_colors` is true at construction, the active
color policy is `pycharm_color_levels`, regardless of the `color_levels`
argument supplied by the caller. -/
theorem C4_pycharm_overrides (c f : String) (ud : Bool) (cl : List (Level × Nat)) :
    (LoggingWrapper.init c f ud true cl).color_levels = pycharm_color_levels := by
  rfl

/-- Claim C9: when both `use_default_colors` and `use_pycharm_colors` are
true, the PyCharm preset wins and colorization is enabled. -/
theorem C9_both_flags (c f : String) (cl : List (Level × Nat)) :
    (LoggingWrapper.init c f true true cl).color_levels = pycharm_color_levels ∧
      (LoggingWrapper.init c f true true cl).use_colors = true := by
  exact ⟨rfl, rfl⟩

/-- Claim C7: with standard colors enabled and the default policy, calling
`warning "disk almost full"` records exactly one console write with
`"\033[33mdisk almost full\033[0m"` followed by one file write with
`"disk almost full"`. -/
theorem C7_warning_scenario :
    (LoggingWrapper.init "console" "file" true false default_color_levels).warning
        (Msg.str "disk almost full") =
      Except.ok (LoggingWrapper.init "console" "file" true false default_color_levels,
        [Write.mk "console" Level.warning "\x1b[33mdisk almost full\x1b[0m",
         Write.mk "file" Level.warning "disk almost full"]) := by
  decide

/-- Claim C1: every level-named facade operation performs exactly two sink
writes and nothing else — first the console handle's level-named write with
the colorized copy when colorization is enabled (else the normalized text),
then the file handle's level-named write with the plain normalized text,
never colorized; one write each, with no buffering, retry or suppression. -/
theorem C1_two_writes (w : LoggingWrapper) (L : Level) (msg : Msg) (cc : Nat)
    (h : w.use_colors = true → List.lookup L w.color_levels = some cc) :
    w.log L msg =
      Except.ok (w,
        [Write.mk w.c_logger L
          (if w.use_colors then color_levels_template L cc (normalizeMsg msg)
           else normalizeMsg msg),
         Write.mk w.f_logger L (normalizeMsg msg)]) :=
  log_ok_general w L msg cc h

/-- Witness for C1 at a concrete input: standard colors, level `info`,
message `"hello"`. -/
theorem C1_two_writes_witness :
    ((LoggingWrapper.init "c" "f" true false default_color_levels).use_colors = true →
      List.lookup Level.info
        (LoggingWrapper.init "c" "f" true false default_color_levels).color_levels = some 32) ∧
    (LoggingWrapper.init "c" "f" true false default_color_levels).log Level.info
        (Msg.str "hello") =
      Except.ok (LoggingWrapper.init "c" "f" true false default_color_levels,
        [Write.mk "c" Level.info "\x1b[32mhello\x1b[0m",
         Write.mk "f" Level.info "hello"]) :=
  ⟨by decide,
   (C1_two_writes (LoggingWrapper.init "c" "f" true false default_color_levels)
      Level.info (Msg.str "hello") 32 (by decide)).trans (by decide)⟩

/-- Claim C2: `use_colors` is set at construction iff `use_default_colors` or
`use_pycharm_colors` is set; when neither is set, a caller-supplied policy is
stored but never applied, and every level-named operation delivers the plain
text unmodified to both sinks. -/
theorem C2_colorize_iff (c f : String) (ud up : Bool) (cl : List (Level × Nat))
    (L : Level) (m : String) :
    (LoggingWrapper.init c f ud up cl).use_colors = (ud || up) ∧
    (LoggingWrapper.init c f false false cl).color_levels = cl ∧
    (LoggingWrapper.init c f false false cl).log L (Msg.str m) =
      Except.ok (LoggingWrapper.init c f false false cl,
        [Write.mk c L m, Write.mk f L m]) := by
  refine ⟨?_, rfl, ?_⟩
  · cases ud <;> cases up <;> rfl
  · rw [log_eq_call_loggers]
    exact call_loggers_ok_nocolors _ L (Msg.str m) rfl

/-- Claim C3: an `Exception` message is normalized, once and before any
colorization, to `"[<ClassName>] <description>"`; both sinks receive that
same normalized text (only the console copy may also be colorized), and a
non-`Exception` message passes through normalization unchanged. -/
theorem C3_exc_normalization (w : LoggingWrapper) (L : Level) (cn tx s : String)
    (cc : Nat) (h : w.use_colors = true → List.lookup L w.color_levels = some cc) :
    normalizeMsg (Msg.exc cn tx) = "[" ++ cn ++ "] " ++ tx ∧
    normalizeMsg (Msg.str s) = s ∧
    w.log L (Msg.exc cn tx) =
      Except.ok (w,
        [Write.mk w.c_logger L
          (if w.use_colors then color_levels_template L cc ("[" ++ cn ++ "] " ++ tx)
           else "[" ++ cn ++ "] " ++ tx),
         Write.mk w.f_logger L ("[" ++ cn ++ "] " ++ tx)]) :=
  ⟨rfl, rfl, log_ok_general w L (Msg.exc cn tx) cc h⟩

/-- Witness for C3 at a concrete input: an `OSError` with text `"disk full"`
logged at level `error` under standard colors normalizes to exactly
`"[OSError] disk full"` on both sinks. -/
theorem C3_exc_normalization_witness :
    ((LoggingWrapper.init "c" "f" true false default_color_levels).use_colors = true →
      List.lookup Level.error
        (LoggingWrapper.init "c" "f" true false default_color_levels).color_levels = some 31) ∧
    (LoggingWrapper.init "c" "f" true false default_color_levels).log Level.error
        (Msg.exc "OSError" "disk full") =
      Except.ok (LoggingWrapper.init "c" "f" true false default_color_levels,
        [Write.mk "c" Level.error "\x1b[31m[OSError] disk full\x1b[0m",
         Write.mk "f" Level.error "[OSError] disk full"]) :=
  ⟨by decide,
   ((C3_exc_normalization (LoggingWrapper.init "c" "f" true false default_color_levels)
      Level.error "OSError" "disk full" "p" 31 (by decide)).2.2).trans (by decide)⟩

/-- A facade constructed over the standard-terminal preset. -/
def standardWrapper : LoggingWrapper :=
  LoggingWrapper.init "c" "f" true false default_color_levels

/-- A facade constructed over the alternate (PyCharm) preset. -/
def pycharmWrapper : LoggingWrapper :=
  LoggingWrapper.init "c" "f" false true default_color_levels

/-- Claim C5: the two presets assign identical codes to `error`, `exception`
and `critical` and differing codes to `debug`, `info` and `warning`;
consequently, for every message, the colorized console output is equal
between the presets at the former three levels and differs at the latter
three. -/
theorem C5_preset_agreement (msg : String) :
    List.lookup Level.error default_color_levels =
        List.lookup Level.error pycharm_color_levels ∧
    List.lookup Level.exception default_color_levels =
        List.lookup Level.exception pycharm_color_levels ∧
    List.lookup Level.critical default_color_levels =
        List.lookup Level.critical pycharm_color_levels ∧
    List.lookup Level.debug default_color_levels ≠
        List.lookup Level.debug pycharm_color_levels ∧
    List.lookup Level.info default_color_levels ≠
        List.lookup Level.info pycharm_color_levels ∧
    List.lookup Level.warning default_color_levels ≠
        List.lookup Level.warning pycharm_color_levels ∧
    standardWrapper.set_color msg Level.error = pycharmWrapper.set_color msg Level.error ∧
    standardWrapper.set_color msg Level.exception =
        pycharmWrapper.set_color msg Level.exception ∧
    standardWrapper.set_color msg Level.critical =
        pycharmWrapper.set_color msg Level.critical ∧
    standardWrapper.set_color msg Level.debug ≠ pycharmWrapper.set_color msg Level.debug ∧
    standardWrapper.set_color msg Level.info ≠ pycharmWrapper.set_color msg Level.info ∧
    standardWrapper.set_color msg Level.warning ≠
        pycharmWrapper.set_color msg Level.warning := by
  refine ⟨by decide, by decide, by decide, by decide, by decide, by decide,
    rfl, rfl, rfl, ?_, ?_, ?_⟩
  · intro he
    have he2 : (Except.ok (color_levels_template Level.debug 36 msg) :
        Except LogError String) = Except.ok (color_levels_template Level.debug 34 msg) := he
    exact absurd (template_code_inj Level.debug 36 34 msg (Except.ok.inj he2)) (by decide)
  · intro he
    have he2 : (Except.ok (color_levels_template Level.info 32 msg) :
        Except LogError String) = Except.ok (color_levels_template Level.info 36 msg) := he
    exact absurd (template_code_inj Level.info 32 36 msg (Except.ok.inj he2)) (by decide)
  · intro he
    have he2 : (Except.ok (color_levels_template Level.warning 33 msg) :
        Except LogError String) = Except.ok (color_levels_template Level.warning 32 msg) := he
    exact absurd (template_code_inj Level.warning 33 32 msg (Except.ok.inj he2)) (by decide)

/-- Claim C6: with colorization enabled and a custom policy missing the
`critical` entry, construction succeeds (the flag is set and the policy is
stored as given), and the first `critical` call fails with the missing-key
lookup error instead of silently falling back to an uncolored message. -/
theorem C6_missing_critical (c f m : String) (cl : List (Level × Nat))
    (h : List.lookup Level.critical cl = none) :
    (LoggingWrapper.init c f true false cl).use_colors = true ∧
    (LoggingWrapper.init c f true false cl).color_levels = cl ∧
    (LoggingWrapper.init c f true false cl).critical (Msg.str m) =
      Except.error (LogError.keyError Level.critical) :=
  ⟨rfl, rfl, call_loggers_err _ Level.critical (Msg.str m) rfl h⟩

/-- Witness for C6 at a concrete input: a policy holding only a `debug`
entry makes the `critical` call fail with `KeyError` on `critical`. -/
theorem C6_missing_critical_witness :
    List.lookup Level.critical [(Level.debug, 36)] = none ∧
    (LoggingWrapper.init "c" "f" true false [(Level.debug, 36)]).critical
        (Msg.str "boom") =
      Except.error (LogError.keyError Level.critical) :=
  ⟨by decide,
   (C6_missing_critical "c" "f" "boom" [(Level.debug, 36)] (by decide)).2.2⟩

/-- Claim C8: a successful logging call leaves the facade's state unchanged
(both handles, the active policy and all flags), so repeating the same call
from the post-state yields the identical pair of sink writes. -/
theorem C8_frame (w : LoggingWrapper) (L : Level) (msg : Msg)
    (w1 : LoggingWrapper) (ws1 : List Write)
    (h : w.log L msg = Except.ok (w1, ws1)) :
    w1 = w ∧ w1.log L msg = Except.ok (w1, ws1) := by
  have hw : w1 = w := by
    cases hu : w.use_colors with
    | false =>
        rw [log_eq_call_loggers, call_loggers_ok_nocolors w L msg hu] at h
        exact (congrArg Prod.fst (Except.ok.inj h)).symm
    | true =>
        cases hl : List.lookup L w.color_levels with
        | none =>
            rw [log_eq_call_loggers, call_loggers_err w L msg hu hl] at h
            cases h
        | some cc =>
            rw [log_eq_call_loggers, call_loggers_ok_colors w L msg cc hu hl] at h
            exact (congrArg Prod.fst (Except.ok.inj h)).symm
  subst hw
  exact ⟨rfl, h⟩

/-- Witness for C8 at a concrete input: colorization disabled, level `debug`,
message `"x"`. -/
theorem C8_frame_witness :
    (LoggingWrapper.init "c" "f" false false default_color_levels).log Level.debug
        (Msg.str "x") =
      Except.ok (LoggingWrapper.init "c" "f" false false default_color_levels,
        [Write.mk "c" Level.debug "x", Write.mk "f" Level.debug "x"]) ∧
    (LoggingWrapper.init "c" "f" false false default_color_levels =
        LoggingWrapper.init "c" "f" false false default_color_levels ∧
      (LoggingWrapper.init "c" "f" false false default_color_levels).log Level.debug
          (Msg.str "x") =
        Except.ok (LoggingWrapper.init "c" "f" false false default_color_levels,
          [Write.mk "c" Level.debug "x", Write.mk "f" Level.debug "x"])) :=
  ⟨by decide,
   C8_frame (LoggingWrapper.init "c" "f" false false default_color_levels) Level.debug
     (Msg.str "x") (LoggingWrapper.init "c" "f" false false default_color_levels)
     [Write.mk "c" Level.debug "x", Write.mk "f" Level.debug "x"] (by decide)⟩

/-- Claim C10: with colorization disabled, every level-named operation
succeeds for every message — even an empty or partial stored policy — since
the colorize step (and with it the missing-key error) is skipped entirely. -/
theorem C10_disabled_never_fails (c f : String) (cl : List (Level × Nat))
    (L : Level) (msg : Msg) :
    (LoggingWrapper.init c f false false cl).log L msg =
      Except.ok (LoggingWrapper.init c f false false cl,
        [Write.mk c L (normalizeMsg msg), Write.mk f L (normalizeMsg msg)]) := by
  rw [log_eq_call_loggers]
  exact call_loggers_ok_nocolors _ L msg rfl

end Utility
